import Mathlib

/-!
Verification of the sevdesk-mcp adapter (`src/index.ts`).

The adapter translates MCP tool calls into HTTP requests against the SevDesk
accounting API.  We embed the JavaScript program shallowly:

* `JVal` models JavaScript/JSON values (including `undefined`, which arises
  from reading an absent property);
* `Outcome` models the result of one outbound HTTP request, supplied by an
  environment `Env` as a function of the request's position in the issue
  order (the program is sequential: each `await` resolves before the next
  request is built, so the k-th issued request receives outcome `resp k`);
* each `case` of the `CallToolRequestSchema` handler becomes a `tool*`
  function returning the JS result (or thrown error) together with the list
  of HTTP requests issued, in issue order;
* `callTool` is the dispatch handler including its outer `try`/`catch`,
  which converts any thrown error into an error-flagged result envelope.

JavaScript semantics mirrored here: truthiness (`x || d` defaults),
destructuring defaults (applied only to `undefined`), property reads on
`null`/`undefined` throwing `TypeError`, template-literal stringification,
and `JSON.stringify` (which drops `undefined`-valued object properties).
JSON numbers are modelled as integers; every numeric literal in the program
and in the claims is integral.  Prototype properties of primitives (such as
string index properties) are not modelled; `length` is modelled where the
program reads it.
-/

/-- JavaScript values as far as the adapter manipulates them.  `undefined` is the
result of reading an absent object property. -/
inductive JVal where
  | undefined : JVal
  | null : JVal
  | bool (b : Bool) : JVal
  | num (n : Int) : JVal
  | str (s : String) : JVal
  | arr (xs : List JVal) : JVal
  | obj (fields : List (String × JVal)) : JVal

/-- JavaScript truthiness: `undefined`, `null`, `false`, `0`, `""` are falsy. -/
def truthy : JVal → Bool
  | .undefined => false
  | .null => false
  | .bool b => b
  | .num n => n != 0
  | .str s => s != ""
  | .arr _ => true
  | .obj _ => true

/-- `a || b` on JavaScript values. -/
def jsOr (a b : JVal) : JVal := if truthy a then a else b

/-- Destructuring default `{ x = d } = o`: applied only when the property is
`undefined` (never for `null` or other falsy values). -/
def jsDefault (a d : JVal) : JVal :=
  match a with
  | .undefined => d
  | v => v

/-- Property read that cannot throw: on objects, the first binding for the
key (keys of parsed JSON objects are unique), otherwise `undefined`. -/
def memberD : JVal → String → JVal
  | .obj fs, k => (fs.lookup k).getD .undefined
  | _, _ => .undefined

/-- Message of the `TypeError` raised by reading a property of
`null`/`undefined`. -/
def readMsg (kind key : String) : String :=
  "Cannot read properties of " ++ kind ++ " (reading " ++ key ++ ")"

/-- Errors thrown by the program: plain `new Error(msg)`, `TypeError`, and
the MCP SDK's `McpError` (whose `message` is prefixed with its code). -/
inductive JsError where
  | jsError (msg : String) : JsError
  | typeError (msg : String) : JsError
  | mcpError (code : Int) (msg : String) : JsError

/-- The `.message` property of a thrown error, as the `catch` block reads it. -/
def JsError.message : JsError → String
  | .jsError m => m
  | .typeError m => m
  | .mcpError c m => "MCP error " ++ toString c ++ ": " ++ m

/-- `payload.k = v` on a freshly built object whose keys are distinct from
`k`: appends the property in insertion order. -/
def objPush : JVal → String → JVal → JVal
  | .obj fs, k, v => .obj (fs ++ [(k, v)])
  | w, _, _ => w

/-- Rest pattern `{ key, ...fields } = args` on an object argument: every
binding except `key`, order preserved.  (Index properties of primitive
strings are not modelled; the claims quantify over object arguments.) -/
def restObj : JVal → String → JVal
  | .obj fs, k => .obj (fs.filter fun kv => kv.fst != k)
  | _, _ => .obj []

/-- The `.length` property: real for arrays and strings, an ordinary member
otherwise. -/
def jsLength : JVal → JVal
  | .arr xs => .num xs.length
  | .str s => .num s.length
  | .obj fs => memberD (.obj fs) "length"
  | _ => .undefined

/-- `v > 0` as the program compares `positions.length > 0`.  The only values
reaching this comparison from the program are numbers (array/string lengths)
and `undefined`; numeric coercion of other strings is not modelled and
`NaN` comparisons are false. -/
def jsGtZero : JVal → Bool
  | .num n => decide (0 < n)
  | .bool b => b
  | _ => false

/-- `for (const x of v)`: arrays yield elements, strings yield characters,
anything else throws a `TypeError`. -/
def jsIterate : JVal → Except JsError (List JVal)
  | .arr xs => .ok xs
  | .str s => .ok (s.toList.map fun c => .str (String.singleton c))
  | _ => .error (.typeError "value is not iterable")

/-- One escaped character of `JSON.stringify` string output. -/
def jsonEscapeChar (c : Char) : String :=
  if c = '"' then "\\\""
  else if c = '\\' then "\\\\"
  else if c = '\n' then "\\n"
  else if c = '\t' then "\\t"
  else if c = '\r' then "\\r"
  else if c.toNat = 8 then "\\b"
  else if c.toNat = 12 then "\\f"
  else if c.toNat < 32 then
    "\\u00" ++ (if c.toNat / 16 = 1 then "1" else "0")
      ++ String.singleton (Nat.digitChar (c.toNat % 16))
  else String.singleton c

/-- `JSON.stringify` escaping and quoting of a string. -/
def jsonQuote (s : String) : String :=
  "\"" ++ String.join (s.toList.map jsonEscapeChar) ++ "\""

mutual
/-- Compact `JSON.stringify`.  `none` encodes the JavaScript result
`undefined` (stringifying `undefined` itself). -/
def jsonStringify : JVal → Option String
  | .undefined => none
  | .null => some "null"
  | .bool b => some (if b then "true" else "false")
  | .num n => some (toString n)
  | .str s => some (jsonQuote s)
  | .arr xs => some ("[" ++ String.intercalate "," (jsonStringifyArr xs) ++ "]")
  | .obj fs => some ("\x7b" ++ String.intercalate "," (jsonStringifyObj fs) ++ "\x7d")

/-- Array elements: `undefined` entries serialize as `null`. -/
def jsonStringifyArr : List JVal → List String
  | [] => []
  | v :: vs => ((jsonStringify v).getD "null") :: jsonStringifyArr vs

/-- Object entries: `undefined`-valued properties are dropped. -/
def jsonStringifyObj : List (String × JVal) → List String
  | [] => []
  | (k, v) :: fs =>
    match jsonStringify v with
    | none => jsonStringifyObj fs
    | some sv => (jsonQuote k ++ ":" ++ sv) :: jsonStringifyObj fs
end

/-- Template-literal interpolation `${x}` of a serialization result:
JavaScript renders the value `undefined` as the text `undefined`. -/
def stringifyTpl (v : JVal) : String := (jsonStringify v).getD "undefined"

mutual
/-- Template-literal conversion `String(v)`. -/
def jsTemplate : JVal → String
  | .undefined => "undefined"
  | .null => "null"
  | .bool b => if b then "true" else "false"
  | .num n => toString n
  | .str s => s
  | .arr xs => String.intercalate "," (jsTemplateArr xs)
  | .obj _ => "[object Object]"

/-- `Array.prototype.toString` element conversion: `null` and `undefined`
become empty. -/
def jsTemplateArr : List JVal → List String
  | [] => []
  | v :: vs =>
    (match v with
     | .undefined => ""
     | .null => ""
     | w => jsTemplate w) :: jsTemplateArr vs
end

/-- `v.isObj` is true exactly for object values. -/
def JVal.isObj : JVal → Bool
  | .obj _ => true
  | _ => false

/-- Field lookup on an object value (used to state payload properties). -/
def JVal.lookupF : JVal → String → Option JVal
  | .obj fs, k => fs.lookup k
  | _, _ => none

/-- One outbound HTTP request as built by `axios`: method, url, body and
query parameters (each possibly `undefined`). -/
structure HttpRequest where
  method : JVal
  url : JVal
  data : JVal
  params : JVal

/-- The server-side outcome of one HTTP request: a 2xx response with a body,
an `AxiosError` (with the `(status, data)` of a non-2xx response, or without
a response for a connection-level failure), or some other thrown error. -/
inductive Outcome where
  | ok (body : JVal) : Outcome
  | axiosErr (response : Option (Nat × JVal)) : Outcome
  | thrown (e : JsError) : Outcome

def Outcome.isOk : Outcome → Bool
  | .ok _ => true
  | _ => false

def Outcome.okBody : Outcome → JVal
  | .ok b => b
  | _ => .undefined

/-- Message of the error the request wrapper throws on an `AxiosError`:
interpolates `error.response?.status` and
`JSON.stringify(error.response?.data)` — both render as the text
`undefined` when there is no response. -/
def apiErrorMsg : Option (Nat × JVal) → String
  | some (st, d) => "SevDesk API Error: " ++ toString st ++ " - " ++ stringifyTpl d
  | none => "SevDesk API Error: undefined - undefined"

/-- The error `SevDeskClient.request` propagates for a given failing outcome. -/
def Outcome.errorOf : Outcome → JsError
  | .ok _ => .jsError ""
  | .axiosErr r => .jsError (apiErrorMsg r)
  | .thrown e => e

/-- The environment of one tool call: the outcome of the k-th HTTP request
issued (the program awaits each request before issuing the next, so outcomes
form a sequence), and the value of `new Date().toISOString()`. -/
structure Env where
  resp : Nat → Outcome
  now : String

/-- `SevDeskClient.request` (src/index.ts:33-52): issues the request
(appending it to the trace `tr`), returns `response.data` on success;
wraps an `AxiosError` into `new Error` carrying status and serialized body;
rethrows anything else unchanged. -/
def SevDeskClient.request (env : Env) (tr : List HttpRequest)
    (method url data params : JVal) : Except JsError JVal × List HttpRequest :=
  (match env.resp tr.length with
   | .ok body => .ok body
   | .axiosErr r => .error (.jsError (apiErrorMsg r))
   | .thrown e => .error e,
   tr ++ [⟨method, url, data, params⟩])

/-- Line-item collection for a parent kind (src/index.ts:56). -/
def posEndpoint (parentType : String) : String :=
  if parentType = "Invoice" then "/InvoicePos" else "/OrderPos"

/-- Relation key under which the parent reference is stored
(src/index.ts:57). -/
def parentKeyOf (parentType : String) : String :=
  if parentType = "Invoice" then "invoice" else "order"

/-- Payload of one line-item creation POST (src/index.ts:60-77): parent
reference under the kind's relation key, `quantity` defaulted to `1`,
`price` and `name` from the input, `unity` reference defaulted to id `"1"`,
`taxRate` defaulted to `0`, `mapAll: true`, and `text` appended only when
truthy. -/
def posPayloadCore (parentType : String) (parentId : JVal) (pos : JVal) : JVal :=
  let base := JVal.obj [
    (parentKeyOf parentType, .obj [("id", parentId), ("objectName", .str parentType)]),
    ("quantity", jsOr (memberD pos "quantity") (.num 1)),
    ("price", memberD pos "price"),
    ("name", memberD pos "name"),
    ("unity", .obj [("id", jsOr (memberD pos "unityId") (.str "1")),
                    ("objectName", .str "Unity")]),
    ("taxRate", jsOr (memberD pos "taxRate") (.num 0)),
    ("mapAll", .bool true)]
  if truthy (memberD pos "text") then objPush base "text" (memberD pos "text") else base

/-- Loop body of `SevDeskClient.createPositions` (src/index.ts:59-80): for
each element, build the payload (reading properties throws on a
`null`/`undefined` element), POST it, abort on the first failure, and
collect the responses in input order. -/
def createPositionsLoop (env : Env) (parentId : JVal) (parentType : String) :
    List JVal → List HttpRequest → Except JsError (List JVal) × List HttpRequest
  | [], tr => (.ok [], tr)
  | pos :: rest, tr =>
    match pos with
    | .undefined => (.error (.typeError (readMsg "undefined" "quantity")), tr)
    | .null => (.error (.typeError (readMsg "null" "quantity")), tr)
    | _ =>
      match SevDeskClient.request env tr (.str "POST") (.str (posEndpoint parentType))
          (posPayloadCore parentType parentId pos) .undefined with
      | (.error e, tr2) => (.error e, tr2)
      | (.ok r, tr2) =>
        match createPositionsLoop env parentId parentType rest tr2 with
        | (.ok rs, tr3) => (.ok (r :: rs), tr3)
        | (.error e, tr3) => (.error e, tr3)

/-- `SevDeskClient.createPositions` (src/index.ts:54-82): iterates the
`positions` value with `for..of` and runs the loop. -/
def createPositions (env : Env) (parentId : JVal) (parentType : String)
    (positions : JVal) (tr : List HttpRequest) :
    Except JsError (List JVal) × List HttpRequest :=
  match jsIterate positions with
  | .error e => (.error e, tr)
  | .ok ps => createPositionsLoop env parentId parentType ps tr

/-- `invoiceResponse.objects?.id || invoiceResponse.id`
(src/index.ts:361, 391): reading `.objects` of a `null`/`undefined`
response throws; otherwise the nested id is preferred when truthy, falling
back to the top-level id. -/
def extractCreatedId : JVal → Except JsError JVal
  | .undefined => .error (.typeError (readMsg "undefined" "objects"))
  | .null => .error (.typeError (readMsg "null" "objects"))
  | resp =>
    let a := match memberD resp "objects" with
      | .undefined => JVal.undefined
      | .null => JVal.undefined
      | o => memberD o "id"
    .ok (if truthy a then a else memberD resp "id")

/-- `extractCreatedId` as a value (its non-throwing cases); `undefined` for
the throwing cases. -/
def extractIdD (resp : JVal) : JVal :=
  match extractCreatedId resp with
  | .ok v => v
  | .error _ => .undefined

/-- Document payload of `create_invoice` (src/index.ts:348-358). -/
def invoicePayload (env : Env) (args : JVal) : JVal :=
  let p0 := JVal.obj [
    ("contact", .obj [("id", memberD args "contactId"), ("objectName", .str "Contact")]),
    ("invoiceType", .str "RE"),
    ("status", jsOr (memberD args "status") (.str "100")),
    ("invoiceDate", jsOr (memberD args "invoiceDate") (.str env.now)),
    ("header", jsOr (memberD args "header") (.str "Invoice")),
    ("currency", jsOr (memberD args "currency") (.str "EUR")),
    ("taxType", jsOr (memberD args "taxType") (.str "default")),
    ("mapAll", .bool true)]
  if truthy (memberD args "deliveryDate")
  then objPush p0 "deliveryDate" (memberD args "deliveryDate") else p0

/-- Document payload of `create_offer` (src/index.ts:381-388). -/
def offerPayload (env : Env) (args : JVal) : JVal :=
  JVal.obj [
    ("contact", .obj [("id", memberD args "contactId"), ("objectName", .str "Contact")]),
    ("orderType", .str "AN"),
    ("status", jsOr (memberD args "status") (.str "100")),
    ("orderDate", jsOr (memberD args "orderDate") (.str env.now)),
    ("header", jsOr (memberD args "header") (.str "Offer")),
    ("mapAll", .bool true)]

/-- The `request` tool (src/index.ts:285-291): raw passthrough. -/
def toolRequest (env : Env) (args : JVal) : Except JsError JVal × List HttpRequest :=
  match args with
  | .undefined => (.error (.typeError (readMsg "undefined" "method")), [])
  | .null => (.error (.typeError (readMsg "null" "method")), [])
  | _ =>
    SevDeskClient.request env [] (memberD args "method") (memberD args "url")
      (memberD args "data") (memberD args "params")

/-- Query parameters built by `list_contacts` (src/index.ts:294-297):
`limit`/`offset` destructuring defaults 50/0, `countAll: true` always, the
embed directive when `depth` is truthy, `customerNumber` when truthy. -/
def listContactsParams (args : JVal) : JVal :=
  let limit := jsDefault (memberD args "limit") (.num 50)
  let offset := jsDefault (memberD args "offset") (.num 0)
  let depth := memberD args "depth"
  let customerNumber := memberD args "customerNumber"
  let params0 := JVal.obj [("limit", limit), ("offset", offset), ("countAll", .bool true)]
  let params1 := if truthy depth then objPush params0 "embed" (.str "category,parent")
                 else params0
  if truthy customerNumber
  then objPush params1 "customerNumber" customerNumber else params1

/-- The `list_contacts` tool (src/index.ts:293-300). -/
def toolListContacts (env : Env) (args : JVal) :
    Except JsError JVal × List HttpRequest :=
  match args with
  | .undefined => (.error (.typeError (readMsg "undefined" "limit")), [])
  | .null => (.error (.typeError (readMsg "null" "limit")), [])
  | _ =>
    SevDeskClient.request env [] (.str "GET") (.str "/Contact") .undefined
      (listContactsParams args)

/-- The `create_contact` tool (src/index.ts:302-319): fixed `objectName`,
`status` defaulted to `"1000"`, `category` reference from `categoryId`, and
the optional fields appended only when truthy. -/
def toolCreateContact (env : Env) (args : JVal) :
    Except JsError JVal × List HttpRequest :=
  match args with
  | .undefined => (.error (.typeError (readMsg "undefined" "name")), [])
  | .null => (.error (.typeError (readMsg "null" "name")), [])
  | _ =>
    let nameV := memberD args "name"
    let status := memberD args "status"
    let customerNumber := memberD args "customerNumber"
    let surename := memberD args "surename"
    let familyname := memberD args "familyname"
    let categoryId := memberD args "categoryId"
    let p0 := JVal.obj [
      ("objectName", .str "Contact"),
      ("status", jsOr status (.str "1000")),
      ("category", .obj [("id", categoryId), ("objectName", .str "Category")])]
    let p1 := if truthy nameV then objPush p0 "name" nameV else p0
    let p2 := if truthy surename then objPush p1 "surename" surename else p1
    let p3 := if truthy familyname then objPush p2 "familyname" familyname else p2
    let p4 := if truthy customerNumber
              then objPush p3 "customerNumber" customerNumber else p3
    SevDeskClient.request env [] (.str "POST") (.str "/Contact") p4 .undefined

/-- The `update_contact` tool (src/index.ts:321-328): PUT to the contact's
identity path with all non-id fields passed through unchanged. -/
def toolUpdateContact (env : Env) (args : JVal) :
    Except JsError JVal × List HttpRequest :=
  match args with
  | .undefined => (.error (.typeError (readMsg "undefined" "contactId")), [])
  | .null => (.error (.typeError (readMsg "null" "contactId")), [])
  | _ =>
    SevDeskClient.request env []
      (.str "PUT") (.str ("/Contact/" ++ jsTemplate (memberD args "contactId")))
      (restObj args "contactId") .undefined

/-- Query parameters built by `list_invoices` (src/index.ts:331-334):
`limit`/`offset` destructuring defaults 50/0, `countAll: true` always,
`status` as an equality filter when truthy, `contactId` as the nested-path
filter `contact[id]` when truthy. -/
def listInvoicesParams (args : JVal) : JVal :=
  let limit := jsDefault (memberD args "limit") (.num 50)
  let offset := jsDefault (memberD args "offset") (.num 0)
  let status := memberD args "status"
  let contactId := memberD args "contactId"
  let params0 := JVal.obj [("limit", limit), ("offset", offset), ("countAll", .bool true)]
  let params1 := if truthy status then objPush params0 "status" status else params0
  if truthy contactId then objPush params1 "contact[id]" contactId else params1

/-- The `list_invoices` tool (src/index.ts:330-337). -/
def toolListInvoices (env : Env) (args : JVal) :
    Except JsError JVal × List HttpRequest :=
  match args with
  | .undefined => (.error (.typeError (readMsg "undefined" "limit")), [])
  | .null => (.error (.typeError (readMsg "null" "limit")), [])
  | _ =>
    SevDeskClient.request env [] (.str "GET") (.str "/Invoice") .undefined
      (listInvoicesParams args)

/-- The `get_invoice_positions` tool (src/index.ts:339-344). -/
def toolGetInvoicePositions (env : Env) (args : JVal) :
    Except JsError JVal × List HttpRequest :=
  match args with
  | .undefined => (.error (.typeError (readMsg "undefined" "invoiceId")), [])
  | .null => (.error (.typeError (readMsg "null" "invoiceId")), [])
  | _ =>
    let invoiceId := memberD args "invoiceId"
    let limit := jsDefault (memberD args "limit") (.num 50)
    let offset := jsDefault (memberD args "offset") (.num 0)
    let params := JVal.obj [("limit", limit), ("offset", offset),
      ("invoice[id]", invoiceId), ("invoice[objectName]", .str "Invoice")]
    SevDeskClient.request env [] (.str "GET") (.str "/InvoicePos") .undefined params

/-- The `create_invoice` tool (src/index.ts:346-371): POST the document,
extract the created id (`objects.id` first, then top-level `id`); when
`positions` is truthy with positive `length` and the id is truthy, create
each position and return the composite `invoice`/`positions` object,
otherwise return the bare document response. -/
def toolCreateInvoice (env : Env) (args : JVal) :
    Except JsError JVal × List HttpRequest :=
  match args with
  | .undefined => (.error (.typeError (readMsg "undefined" "contactId")), [])
  | .null => (.error (.typeError (readMsg "null" "contactId")), [])
  | _ =>
    let positions := memberD args "positions"
    match SevDeskClient.request env [] (.str "POST") (.str "/Invoice")
        (invoicePayload env args) .undefined with
    | (.error e, tr) => (.error e, tr)
    | (.ok invoiceResponse, tr) =>
      match extractCreatedId invoiceResponse with
      | .error e => (.error e, tr)
      | .ok invoiceId =>
        if truthy positions && jsGtZero (jsLength positions) && truthy invoiceId then
          match createPositions env invoiceId "Invoice" positions tr with
          | (.ok posResults, tr2) =>
            (.ok (.obj [("invoice", invoiceResponse), ("positions", .arr posResults)]), tr2)
          | (.error e, tr2) => (.error e, tr2)
        else (.ok invoiceResponse, tr)

/-- The `update_invoice` tool (src/index.ts:373-377). -/
def toolUpdateInvoice (env : Env) (args : JVal) :
    Except JsError JVal × List HttpRequest :=
  match args with
  | .undefined => (.error (.typeError (readMsg "undefined" "invoiceId")), [])
  | .null => (.error (.typeError (readMsg "null" "invoiceId")), [])
  | _ =>
    SevDeskClient.request env []
      (.str "PUT") (.str ("/Invoice/" ++ jsTemplate (memberD args "invoiceId")))
      (restObj args "invoiceId") .undefined

/-- The `create_offer` tool (src/index.ts:379-400): like `create_invoice`
against the order resource with subtype tag "AN". -/
def toolCreateOffer (env : Env) (args : JVal) :
    Except JsError JVal × List HttpRequest :=
  match args with
  | .undefined => (.error (.typeError (readMsg "undefined" "contactId")), [])
  | .null => (.error (.typeError (readMsg "null" "contactId")), [])
  | _ =>
    let positions := memberD args "positions"
    match SevDeskClient.request env [] (.str "POST") (.str "/Order")
        (offerPayload env args) .undefined with
    | (.error e, tr) => (.error e, tr)
    | (.ok orderResponse, tr) =>
      match extractCreatedId orderResponse with
      | .error e => (.error e, tr)
      | .ok orderId =>
        if truthy positions && jsGtZero (jsLength positions) && truthy orderId then
          match createPositions env orderId "Order" positions tr with
          | (.ok posResults, tr2) =>
            (.ok (.obj [("offer", orderResponse), ("positions", .arr posResults)]), tr2)
          | (.error e, tr2) => (.error e, tr2)
        else (.ok orderResponse, tr)

/-- The `update_offer` tool (src/index.ts:402-406). -/
def toolUpdateOffer (env : Env) (args : JVal) :
    Except JsError JVal × List HttpRequest :=
  match args with
  | .undefined => (.error (.typeError (readMsg "undefined" "orderId")), [])
  | .null => (.error (.typeError (readMsg "null" "orderId")), [])
  | _ =>
    SevDeskClient.request env []
      (.str "PUT") (.str ("/Order/" ++ jsTemplate (memberD args "orderId")))
      (restObj args "orderId") .undefined

/-- The fixed set of declared tools (src/index.ts:99-278), which is exactly
the set of cases of the dispatch switch (src/index.ts:284-409). -/
def toolNames : List String :=
  ["request", "list_contacts", "create_contact", "update_contact",
   "list_invoices", "get_invoice_positions", "create_invoice",
   "update_invoice", "create_offer", "update_offer"]

/-- The dispatch switch (src/index.ts:284-409): run the named tool, or throw
`McpError(ErrorCode.MethodNotFound)` for an unknown name. -/
def runTool (env : Env) (name : String) (args : JVal) :
    Except JsError JVal × List HttpRequest :=
  if name = "request" then toolRequest env args
  else if name = "list_contacts" then toolListContacts env args
  else if name = "create_contact" then toolCreateContact env args
  else if name = "update_contact" then toolUpdateContact env args
  else if name = "list_invoices" then toolListInvoices env args
  else if name = "get_invoice_positions" then toolGetInvoicePositions env args
  else if name = "create_invoice" then toolCreateInvoice env args
  else if name = "update_invoice" then toolUpdateInvoice env args
  else if name = "create_offer" then toolCreateOffer env args
  else if name = "update_offer" then toolUpdateOffer env args
  else (.error (.mcpError (-32601) ("Unknown tool: " ++ name)), [])

/-- Content of the response envelope: on success the JSON value that the
handler serializes with `JSON.stringify(-, null, 2)`; on error the literal
text `Error: ` followed by the error message. -/
inductive ToolContent where
  | json (j : JVal) : ToolContent
  | errText (msg : String) : ToolContent

/-- The response envelope returned to the MCP caller: content plus the
`isError` flag (absent on success, modelled as `false`). -/
structure ToolResult where
  isError : Bool
  content : ToolContent

/-- The full `CallToolRequestSchema` handler (src/index.ts:280-418): the
dispatch plus the outer `try`/`catch` that converts any thrown error into an
error-flagged envelope. -/
def callTool (env : Env) (name : String) (args : JVal) :
    ToolResult × List HttpRequest :=
  match runTool env name args with
  | (.ok j, tr) => (⟨false, .json j⟩, tr)
  | (.error e, tr) => (⟨true, .errText ("Error: " ++ e.message)⟩, tr)

/-- The request trace of a tool call does not depend on how the dispatch
envelope wraps the result. -/
lemma callTool_snd (env : Env) (name : String) (args : JVal) :
    (callTool env name args).2 = (runTool env name args).2 := by
  unfold callTool
  rcases runTool env name args with ⟨r, tr⟩
  cases r <;> rfl

lemma string_data_append (a b : String) : (a ++ b).data = a.data ++ b.data := by
  rcases a with ⟨xs⟩
  rcases b with ⟨ys⟩
  rfl

lemma string_append_assoc (a b c : String) : a ++ b ++ c = a ++ (b ++ c) := by
  apply String.ext
  simp [string_data_append]

/-- C5: any HTTP response with status >= 400 reaches the shared request
helper as an `AxiosError` carrying `(status, body)`; the helper throws an
error whose message text embeds the numeric status and the serialized
response body (both occur as infixes of the message). -/
theorem http_error_surfaced (env : Env) (tr : List HttpRequest)
    (method url data params : JVal) (st : Nat) (body : JVal)
    (hst : 400 ≤ st)
    (h : env.resp tr.length = .axiosErr (some (st, body))) :
    SevDeskClient.request env tr method url data params =
      (.error (.jsError ("SevDesk API Error: " ++ toString st ++ " - " ++ stringifyTpl body)),
       tr ++ [⟨method, url, data, params⟩])
    ∧ List.IsInfix (toString st).data
        ("SevDesk API Error: " ++ toString st ++ " - " ++ stringifyTpl body).data
    ∧ List.IsInfix (stringifyTpl body).data
        ("SevDesk API Error: " ++ toString st ++ " - " ++ stringifyTpl body).data := by
  refine ⟨by simp [SevDeskClient.request, h, apiErrorMsg], ?_, ?_⟩
  · exact ⟨"SevDesk API Error: ".data, (" - " ++ stringifyTpl body).data,
      by simp [string_data_append]⟩
  · exact ⟨("SevDesk API Error: " ++ toString st ++ " - ").data, [],
      by simp [string_data_append]⟩

def env404 : Env :=
  ⟨fun _ => .axiosErr (some (404, .obj [("message", .str "not found")])), "now"⟩

theorem http_error_surfaced_witness :
    400 ≤ 404
    ∧ env404.resp (List.length ([] : List HttpRequest)) =
        .axiosErr (some (404, .obj [("message", .str "not found")]))
    ∧ (SevDeskClient.request env404 [] (.str "GET") (.str "/Contact") .undefined .undefined =
        (.error (.jsError ("SevDesk API Error: " ++ toString 404 ++ " - "
            ++ stringifyTpl (.obj [("message", .str "not found")]))),
         [] ++ [⟨.str "GET", .str "/Contact", .undefined, .undefined⟩])
      ∧ List.IsInfix (toString 404).data
          ("SevDesk API Error: " ++ toString 404 ++ " - "
            ++ stringifyTpl (.obj [("message", .str "not found")])).data
      ∧ List.IsInfix (stringifyTpl (.obj [("message", .str "not found")])).data
          ("SevDesk API Error: " ++ toString 404 ++ " - "
            ++ stringifyTpl (.obj [("message", .str "not found")])).data) :=
  ⟨by decide, rfl,
   http_error_surfaced env404 [] (.str "GET") (.str "/Contact") .undefined .undefined
     404 (.obj [("message", .str "not found")]) (by decide) rfl⟩

/-- C10: an HTTP-layer failure that carries no response object is rethrown
by the shared request helper as an `Error` whose message is exactly
`SevDesk API Error: undefined - undefined`. -/
theorem network_error_undefined_message (env : Env) (tr : List HttpRequest)
    (method url data params : JVal)
    (h : env.resp tr.length = .axiosErr none) :
    SevDeskClient.request env tr method url data params =
      (.error (.jsError "SevDesk API Error: undefined - undefined"),
       tr ++ [⟨method, url, data, params⟩]) := by
  simp [SevDeskClient.request, h, apiErrorMsg]

def envNetFail : Env := ⟨fun _ => .axiosErr none, "now"⟩

theorem network_error_undefined_message_witness :
    envNetFail.resp (List.length ([] : List HttpRequest)) = .axiosErr none
    ∧ SevDeskClient.request envNetFail [] (.str "GET") (.str "/Contact") .undefined .undefined =
      (.error (.jsError "SevDesk API Error: undefined - undefined"),
       [] ++ [⟨.str "GET", .str "/Contact", .undefined, .undefined⟩]) :=
  ⟨rfl, network_error_undefined_message envNetFail []
    (.str "GET") (.str "/Contact") .undefined .undefined rfl⟩

/-- C6: an invocation naming an operation outside the fixed declared tool
set issues no HTTP request; the thrown `McpError(MethodNotFound)` is caught
at the dispatch boundary and reported to the caller as an error-flagged
envelope carrying the method-not-found code `-32601` and the unknown name. -/
theorem unknown_tool_method_not_found (env : Env) (name : String) (args : JVal)
    (h : name ∉ toolNames) :
    callTool env name args =
      (⟨true, .errText ("Error: MCP error -32601: Unknown tool: " ++ name)⟩, []) := by
  simp only [toolNames, List.mem_cons, List.mem_singleton, not_or] at h
  obtain ⟨h1, h2, h3, h4, h5, h6, h7, h8, h9, h10, -⟩ := h
  unfold callTool runTool
  rw [if_neg h1, if_neg h2, if_neg h3, if_neg h4, if_neg h5, if_neg h6,
    if_neg h7, if_neg h8, if_neg h9, if_neg h10]
  rfl

theorem unknown_tool_method_not_found_witness :
    "frobnicate" ∉ toolNames
    ∧ callTool envNetFail "frobnicate" .undefined =
      (⟨true, .errText ("Error: MCP error -32601: Unknown tool: " ++ "frobnicate")⟩, []) :=
  ⟨by decide, unknown_tool_method_not_found envNetFail "frobnicate" .undefined (by decide)⟩

/-- C7: `create_contact` with name `Acme Corp` and `categoryId` 3 issues
exactly one POST to `/Contact` whose body is exactly the four-field object
of the claim, with the absent optional fields omitted. -/
theorem create_contact_example_post (env : Env) :
    (callTool env "create_contact"
      (.obj [("name", .str "Acme Corp"), ("categoryId", .num 3)])).2 =
      [⟨.str "POST", .str "/Contact",
        .obj [("objectName", .str "Contact"), ("status", .str "1000"),
              ("category", .obj [("id", .num 3), ("objectName", .str "Category")]),
              ("name", .str "Acme Corp")], .undefined⟩] := by
  rw [callTool_snd]
  rfl

/-- C8: each update tool issues exactly one PUT to the resource's identity
path, and its body is exactly the argument object minus the id key, with
field names and values passed through unmodified. -/
theorem update_passthrough_put (env : Env) (fs : List (String × JVal)) :
    (callTool env "update_contact" (.obj fs)).2 =
      [⟨.str "PUT", .str ("/Contact/" ++ jsTemplate (memberD (.obj fs) "contactId")),
        .obj (fs.filter fun kv => kv.fst != "contactId"), .undefined⟩]
    ∧ (callTool env "update_invoice" (.obj fs)).2 =
      [⟨.str "PUT", .str ("/Invoice/" ++ jsTemplate (memberD (.obj fs) "invoiceId")),
        .obj (fs.filter fun kv => kv.fst != "invoiceId"), .undefined⟩]
    ∧ (callTool env "update_offer" (.obj fs)).2 =
      [⟨.str "PUT", .str ("/Order/" ++ jsTemplate (memberD (.obj fs) "orderId")),
        .obj (fs.filter fun kv => kv.fst != "orderId"), .undefined⟩] := by
  refine ⟨?_, ?_, ?_⟩ <;> rw [callTool_snd] <;> rfl

/-- The POST issued for one position. -/
def posRequest (parentType : String) (parentId : JVal) (p : JVal) : HttpRequest :=
  ⟨.str "POST", .str (posEndpoint parentType), posPayloadCore parentType parentId p, .undefined⟩

/-- The bodies of `n` consecutive successful responses starting at issue
index `base`. -/
def posResults (env : Env) (base n : Nat) : List JVal :=
  (List.range n).map fun j => (env.resp (base + j)).okBody

lemma posResults_succ (env : Env) (base n : Nat) :
    posResults env base (n + 1) =
      (env.resp base).okBody :: posResults env (base + 1) n := by
  unfold posResults
  rw [List.range_succ_eq_map, List.map_cons, List.map_map]
  refine congrArg₂ _ (by simp) ?_
  apply List.map_congr_left
  intro j _
  show (env.resp (base + (j + 1))).okBody = (env.resp (base + 1 + j)).okBody
  congr 2
  omega

lemma createPositionsLoop_cons_notnull (env : Env) (pid : JVal) (pt : String)
    (pos : JVal) (rest : List JVal) (tr : List HttpRequest)
    (hu : pos ≠ .undefined) (hn : pos ≠ .null) :
    createPositionsLoop env pid pt (pos :: rest) tr =
      match SevDeskClient.request env tr (.str "POST") (.str (posEndpoint pt))
          (posPayloadCore pt pid pos) .undefined with
      | (.error e, tr2) => (.error e, tr2)
      | (.ok r, tr2) =>
        match createPositionsLoop env pid pt rest tr2 with
        | (.ok rs, tr3) => (.ok (r :: rs), tr3)
        | (.error e, tr3) => (.error e, tr3) := by
  cases pos <;> first | exact absurd rfl hu | exact absurd rfl hn | rfl

lemma loop_cons_ok (env : Env) (pid : JVal) (pt : String)
    (pos : JVal) (rest : List JVal) (tr : List HttpRequest)
    (hu : pos ≠ .undefined) (hn : pos ≠ .null)
    (hok : (env.resp tr.length).isOk = true) :
    createPositionsLoop env pid pt (pos :: rest) tr =
      match createPositionsLoop env pid pt rest (tr ++ [posRequest pt pid pos]) with
      | (.ok rs, tr3) => (.ok ((env.resp tr.length).okBody :: rs), tr3)
      | (.error e, tr3) => (.error e, tr3) := by
  rw [createPositionsLoop_cons_notnull env pid pt pos rest tr hu hn]
  rcases hresp : env.resp tr.length with b | r | e
  case axiosErr => rw [hresp] at hok; simp [Outcome.isOk] at hok
  case thrown => rw [hresp] at hok; simp [Outcome.isOk] at hok
  have hreq : SevDeskClient.request env tr (.str "POST") (.str (posEndpoint pt))
      (posPayloadCore pt pid pos) .undefined = (.ok b, tr ++ [posRequest pt pid pos]) := by
    simp [SevDeskClient.request, hresp, posRequest]
  rw [hreq]
  rfl

lemma loop_cons_err (env : Env) (pid : JVal) (pt : String)
    (pos : JVal) (rest : List JVal) (tr : List HttpRequest)
    (hu : pos ≠ .undefined) (hn : pos ≠ .null)
    (hfail : (env.resp tr.length).isOk = false) :
    createPositionsLoop env pid pt (pos :: rest) tr =
      (.error (env.resp tr.length).errorOf, tr ++ [posRequest pt pid pos]) := by
  rw [createPositionsLoop_cons_notnull env pid pt pos rest tr hu hn]
  rcases hresp : env.resp tr.length with b | r | e
  · rw [hresp] at hfail; simp [Outcome.isOk] at hfail
  · have hreq : SevDeskClient.request env tr (.str "POST") (.str (posEndpoint pt))
        (posPayloadCore pt pid pos) .undefined =
        (.error (.jsError (apiErrorMsg r)), tr ++ [posRequest pt pid pos]) := by
      simp [SevDeskClient.request, hresp, posRequest]
    rw [hreq]
    rfl
  · have hreq : SevDeskClient.request env tr (.str "POST") (.str (posEndpoint pt))
        (posPayloadCore pt pid pos) .undefined =
        (.error e, tr ++ [posRequest pt pid pos]) := by
      simp [SevDeskClient.request, hresp, posRequest]
    rw [hreq]
    rfl

/-- When every position is a non-null value and every response succeeds,
the loop issues one POST per position, in input order, and collects the
response bodies in that order. -/
lemma createPositionsLoop_ok (env : Env) (pid : JVal) (pt : String)
    (ps : List JVal) :
    ∀ (tr : List HttpRequest),
    (∀ p ∈ ps, p ≠ .undefined ∧ p ≠ .null) →
    (∀ j, j < ps.length → (env.resp (tr.length + j)).isOk = true) →
    createPositionsLoop env pid pt ps tr =
      (.ok (posResults env tr.length ps.length),
       tr ++ ps.map (posRequest pt pid)) := by
  induction ps with
  | nil => intro tr _ _; simp [createPositionsLoop, posResults]
  | cons pos rest ih =>
    intro tr hgood hok
    obtain ⟨hu, hn⟩ := hgood pos (List.mem_cons_self _ _)
    have h0 : (env.resp tr.length).isOk = true := by
      have := hok 0 (Nat.succ_pos _)
      simpa using this
    have ihh := ih (tr ++ [posRequest pt pid pos])
      (fun p hp => hgood p (List.mem_cons_of_mem _ hp))
      (fun j hj => by
        have e1 : (tr ++ [posRequest pt pid pos]).length + j = tr.length + (j + 1) := by
          simp [List.length_append]
          omega
        rw [e1]
        exact hok (j + 1) (by simpa using Nat.succ_lt_succ hj))
    rw [loop_cons_ok env pid pt pos rest tr hu hn h0, ihh]
    have e1 : (tr ++ [posRequest pt pid pos]).length = tr.length + 1 := by
      simp [List.length_append]
    rw [e1]
    simp only [List.length_cons, posResults_succ, List.map_cons,
      List.append_assoc, List.singleton_append]

/-- When the k-th response fails (after k successes), the loop issues the
POSTs for positions 0..k only, and propagates the failure's error. -/
lemma createPositionsLoop_fail (env : Env) (pid : JVal) (pt : String)
    (ps : List JVal) :
    ∀ (tr : List HttpRequest) (k : Nat), k < ps.length →
    (∀ p ∈ ps, p ≠ .undefined ∧ p ≠ .null) →
    (∀ j, j < k → (env.resp (tr.length + j)).isOk = true) →
    (env.resp (tr.length + k)).isOk = false →
    createPositionsLoop env pid pt ps tr =
      (.error (env.resp (tr.length + k)).errorOf,
       tr ++ (ps.take (k + 1)).map (posRequest pt pid)) := by
  induction ps with
  | nil => intro tr k hk; simp at hk
  | cons pos rest ih =>
    intro tr k hk hgood hok hfail
    obtain ⟨hu, hn⟩ := hgood pos (List.mem_cons_self _ _)
    cases k with
    | zero =>
      rw [Nat.add_zero] at hfail
      rw [loop_cons_err env pid pt pos rest tr hu hn hfail]
      simp [List.take]
    | succ k' =>
      have h0 : (env.resp tr.length).isOk = true := by
        have := hok 0 (Nat.succ_pos _)
        simpa using this
      have e1 : (tr ++ [posRequest pt pid pos]).length = tr.length + 1 := by
        simp [List.length_append]
      have ihh := ih (tr ++ [posRequest pt pid pos]) k'
        (by simpa using Nat.lt_of_succ_lt_succ hk)
        (fun p hp => hgood p (List.mem_cons_of_mem _ hp))
        (fun j hj => by
          rw [e1, show tr.length + 1 + j = tr.length + (j + 1) by omega]
          exact hok (j + 1) (Nat.succ_lt_succ hj))
        (by
          rw [e1, show tr.length + 1 + k' = tr.length + (k' + 1) by omega]
          exact hfail)
      rw [loop_cons_ok env pid pt pos rest tr hu hn h0, ihh]
      rw [e1, show tr.length + 1 + k' = tr.length + (k' + 1) by omega]
      simp [List.take_succ_cons, List.append_assoc]

/-- The two document-creating tools, selected by a flag (`true` =
`create_invoice`, `false` = `create_offer`). -/
def docToolName (isInvoice : Bool) : String :=
  cond isInvoice "create_invoice" "create_offer"

def docPath (isInvoice : Bool) : String := cond isInvoice "/Invoice" "/Order"

def docPayload (isInvoice : Bool) (env : Env) (args : JVal) : JVal :=
  cond isInvoice (invoicePayload env args) (offerPayload env args)

def docParentType (isInvoice : Bool) : String := cond isInvoice "Invoice" "Order"

def docKey (isInvoice : Bool) : String := cond isInvoice "invoice" "offer"

/-- The document-creation POST a document tool issues first. -/
def docRequest (isInvoice : Bool) (env : Env) (args : JVal) : HttpRequest :=
  ⟨.str "POST", .str (docPath isInvoice), docPayload isInvoice env args, .undefined⟩

lemma toolCreateInvoice_obj (env : Env) (fs : List (String × JVal)) :
    toolCreateInvoice env (.obj fs) =
      (match SevDeskClient.request env [] (.str "POST") (.str "/Invoice")
          (invoicePayload env (.obj fs)) .undefined with
       | (.error e, tr) => (.error e, tr)
       | (.ok invoiceResponse, tr) =>
         match extractCreatedId invoiceResponse with
         | .error e => (.error e, tr)
         | .ok invoiceId =>
           if truthy (memberD (.obj fs) "positions")
               && jsGtZero (jsLength (memberD (.obj fs) "positions"))
               && truthy invoiceId then
             match createPositions env invoiceId "Invoice"
                 (memberD (.obj fs) "positions") tr with
             | (.ok posResults, tr2) =>
               (.ok (.obj [("invoice", invoiceResponse), ("positions", .arr posResults)]),
                tr2)
             | (.error e, tr2) => (.error e, tr2)
           else (.ok invoiceResponse, tr)) := rfl

lemma toolCreateOffer_obj (env : Env) (fs : List (String × JVal)) :
    toolCreateOffer env (.obj fs) =
      (match SevDeskClient.request env [] (.str "POST") (.str "/Order")
          (offerPayload env (.obj fs)) .undefined with
       | (.error e, tr) => (.error e, tr)
       | (.ok orderResponse, tr) =>
         match extractCreatedId orderResponse with
         | .error e => (.error e, tr)
         | .ok orderId =>
           if truthy (memberD (.obj fs) "positions")
               && jsGtZero (jsLength (memberD (.obj fs) "positions"))
               && truthy orderId then
             match createPositions env orderId "Order"
                 (memberD (.obj fs) "positions") tr with
             | (.ok posResults, tr2) =>
               (.ok (.obj [("offer", orderResponse), ("positions", .arr posResults)]),
                tr2)
             | (.error e, tr2) => (.error e, tr2)
           else (.ok orderResponse, tr)) := rfl

/-- Happy path of a document tool: document POST succeeds, an id is
resolved and truthy, positions is a non-empty array of non-null values, and
every position POST succeeds. -/
lemma docTool_composite (b : Bool) (env : Env) (fs : List (String × JVal))
    (ps : List JVal) (resp idv : JVal)
    (hpos : memberD (.obj fs) "positions" = .arr ps)
    (hne : ps ≠ [])
    (hobj : ∀ p ∈ ps, p ≠ .undefined ∧ p ≠ .null)
    (h0 : env.resp 0 = .ok resp)
    (hid : extractCreatedId resp = .ok idv)
    (hidt : truthy idv = true)
    (hok : ∀ j, j < ps.length → (env.resp (1 + j)).isOk = true) :
    runTool env (docToolName b) (.obj fs) =
      (.ok (.obj [(docKey b, resp), ("positions", .arr (posResults env 1 ps.length))]),
       docRequest b env (.obj fs) :: ps.map (posRequest (docParentType b) idv)) := by
  have hlen : (0 : Int) < (ps.length : Int) := by
    exact_mod_cast List.length_pos.mpr hne
  cases b
  case true =>
    have hrt : runTool env "create_invoice" (.obj fs) = toolCreateInvoice env (.obj fs) := rfl
    have hreq : SevDeskClient.request env [] (.str "POST") (.str "/Invoice")
        (invoicePayload env (.obj fs)) .undefined =
        (.ok resp, [docRequest true env (.obj fs)]) := by
      simp [SevDeskClient.request, h0, docRequest, docPath, docPayload]
    have hloop := createPositionsLoop_ok env idv "Invoice" ps
      [docRequest true env (.obj fs)] hobj
      (by simpa using hok)
    have h1 : truthy (JVal.arr ps) = true := rfl
    have h2 : jsGtZero (jsLength (JVal.arr ps)) = true := by
      simp only [jsLength, jsGtZero, decide_eq_true_eq]
      exact hlen
    have hcond : (truthy (JVal.arr ps) && jsGtZero (jsLength (JVal.arr ps))
        && truthy idv) = true := by
      rw [h1, h2, hidt]
      rfl
    simp only [docToolName, cond_true, hrt, toolCreateInvoice_obj, hreq, hid, hpos,
      hcond, if_true, createPositions, jsIterate]
    simp only [hloop]
    simp [docKey, docParentType, List.length_singleton]
  case false =>
    have hrt : runTool env "create_offer" (.obj fs) = toolCreateOffer env (.obj fs) := rfl
    have hreq : SevDeskClient.request env [] (.str "POST") (.str "/Order")
        (offerPayload env (.obj fs)) .undefined =
        (.ok resp, [docRequest false env (.obj fs)]) := by
      simp [SevDeskClient.request, h0, docRequest, docPath, docPayload]
    have hloop := createPositionsLoop_ok env idv "Order" ps
      [docRequest false env (.obj fs)] hobj
      (by simpa using hok)
    have h1 : truthy (JVal.arr ps) = true := rfl
    have h2 : jsGtZero (jsLength (JVal.arr ps)) = true := by
      simp only [jsLength, jsGtZero, decide_eq_true_eq]
      exact hlen
    have hcond : (truthy (JVal.arr ps) && jsGtZero (jsLength (JVal.arr ps))
        && truthy idv) = true := by
      rw [h1, h2, hidt]
      rfl
    simp only [docToolName, cond_false, hrt, toolCreateOffer_obj, hreq, hid, hpos,
      hcond, if_true, createPositions, jsIterate]
    simp only [hloop]
    simp [docKey, docParentType, List.length_singleton]

/-- Failure path of a document tool: document POST succeeds and a truthy id
is resolved, positions 0..k-1 succeed, position k's POST fails: the loop
aborts, no further request is issued, and the error propagates. -/
lemma docTool_posfail (b : Bool) (env : Env) (fs : List (String × JVal))
    (ps : List JVal) (k : Nat) (resp idv : JVal)
    (hpos : memberD (.obj fs) "positions" = .arr ps)
    (hobj : ∀ p ∈ ps, p ≠ .undefined ∧ p ≠ .null)
    (h0 : env.resp 0 = .ok resp)
    (hid : extractCreatedId resp = .ok idv)
    (hidt : truthy idv = true)
    (hk : k < ps.length)
    (hok : ∀ j, j < k → (env.resp (1 + j)).isOk = true)
    (hfail : (env.resp (1 + k)).isOk = false) :
    runTool env (docToolName b) (.obj fs) =
      (.error (env.resp (1 + k)).errorOf,
       docRequest b env (.obj fs)
         :: (ps.take (k + 1)).map (posRequest (docParentType b) idv)) := by
  have hlen : (0 : Int) < (ps.length : Int) := by
    exact_mod_cast Nat.lt_of_le_of_lt (Nat.zero_le _) hk
  have h1 : truthy (JVal.arr ps) = true := rfl
  have h2 : jsGtZero (jsLength (JVal.arr ps)) = true := by
    simp only [jsLength, jsGtZero, decide_eq_true_eq]
    exact hlen
  have hcond : (truthy (JVal.arr ps) && jsGtZero (jsLength (JVal.arr ps))
      && truthy idv) = true := by
    rw [h1, h2, hidt]
    rfl
  cases b
  case true =>
    have hrt : runTool env "create_invoice" (.obj fs) = toolCreateInvoice env (.obj fs) := rfl
    have hreq : SevDeskClient.request env [] (.str "POST") (.str "/Invoice")
        (invoicePayload env (.obj fs)) .undefined =
        (.ok resp, [docRequest true env (.obj fs)]) := by
      simp [SevDeskClient.request, h0, docRequest, docPath, docPayload]
    have hloop := createPositionsLoop_fail env idv "Invoice" ps
      [docRequest true env (.obj fs)] k hk hobj
      (by simpa using hok) (by simpa using hfail)
    simp only [docToolName, cond_true, hrt, toolCreateInvoice_obj, hreq, hid, hpos,
      hcond, if_true, createPositions, jsIterate]
    simp only [hloop]
    simp [docParentType, List.length_singleton]
  case false =>
    have hrt : runTool env "create_offer" (.obj fs) = toolCreateOffer env (.obj fs) := rfl
    have hreq : SevDeskClient.request env [] (.str "POST") (.str "/Order")
        (offerPayload env (.obj fs)) .undefined =
        (.ok resp, [docRequest false env (.obj fs)]) := by
      simp [SevDeskClient.request, h0, docRequest, docPath, docPayload]
    have hloop := createPositionsLoop_fail env idv "Order" ps
      [docRequest false env (.obj fs)] k hk hobj
      (by simpa using hok) (by simpa using hfail)
    simp only [docToolName, cond_false, hrt, toolCreateOffer_obj, hreq, hid, hpos,
      hcond, if_true, createPositions, jsIterate]
    simp only [hloop]
    simp [docParentType, List.length_singleton]

/-- Bare path of a document tool: document POST succeeds, id resolution does
not throw, but the positions/id condition is false: the bare document
response is returned after exactly one request. -/
lemma docTool_bare (b : Bool) (env : Env) (fs : List (String × JVal))
    (resp idv : JVal)
    (h0 : env.resp 0 = .ok resp)
    (hid : extractCreatedId resp = .ok idv)
    (hcond : (truthy (memberD (.obj fs) "positions")
        && jsGtZero (jsLength (memberD (.obj fs) "positions"))
        && truthy idv) = false) :
    runTool env (docToolName b) (.obj fs) =
      (.ok resp, [docRequest b env (.obj fs)]) := by
  cases b
  case true =>
    have hrt : runTool env "create_invoice" (.obj fs) = toolCreateInvoice env (.obj fs) := rfl
    have hreq : SevDeskClient.request env [] (.str "POST") (.str "/Invoice")
        (invoicePayload env (.obj fs)) .undefined =
        (.ok resp, [docRequest true env (.obj fs)]) := by
      simp [SevDeskClient.request, h0, docRequest, docPath, docPayload]
    simp only [docToolName, cond_true, hrt, toolCreateInvoice_obj, hreq, hid,
      hcond, if_false, Bool.false_eq_true]
  case false =>
    have hrt : runTool env "create_offer" (.obj fs) = toolCreateOffer env (.obj fs) := rfl
    have hreq : SevDeskClient.request env [] (.str "POST") (.str "/Order")
        (offerPayload env (.obj fs)) .undefined =
        (.ok resp, [docRequest false env (.obj fs)]) := by
      simp [SevDeskClient.request, h0, docRequest, docPath, docPayload]
    simp only [docToolName, cond_false, hrt, toolCreateOffer_obj, hreq, hid,
      hcond, if_false, Bool.false_eq_true]

lemma isObj_ne_nullish {p : JVal} (h : p.isObj = true) :
    p ≠ .undefined ∧ p ≠ .null := by
  cases p <;> simp_all [JVal.isObj]

/-- C1: for every `create_invoice` call whose `positions` argument is a
non-empty list (of object line items) and whose document-creation response
yields a truthy created id (via `extractCreatedId`, which checks
`objects.id` first and falls back to the top-level `id`), and whose
line-item requests all succeed, the issued trace is the document POST
followed by exactly one `/InvoicePos` POST per position, sequentially in
input order, and the composite result lists the line-item responses in that
same input order. -/
theorem create_invoice_sequential_positions (env : Env) (fs : List (String × JVal))
    (ps : List JVal) (resp idv : JVal)
    (hpos : memberD (.obj fs) "positions" = .arr ps)
    (hne : ps ≠ [])
    (hobj : ∀ p ∈ ps, p.isObj = true)
    (h0 : env.resp 0 = .ok resp)
    (hid : extractCreatedId resp = .ok idv)
    (hidt : truthy idv = true)
    (hok : ∀ j, j < ps.length → (env.resp (1 + j)).isOk = true) :
    callTool env "create_invoice" (.obj fs) =
      (⟨false, .json (.obj [("invoice", resp),
          ("positions", .arr (posResults env 1 ps.length))])⟩,
       docRequest true env (.obj fs) :: ps.map (posRequest "Invoice" idv)) := by
  have hobj' : ∀ p ∈ ps, p ≠ .undefined ∧ p ≠ .null :=
    fun p hp => isObj_ne_nullish (hobj p hp)
  have h := docTool_composite true env fs ps resp idv hpos hne hobj' h0 hid hidt hok
  simp only [docToolName, cond_true, docKey, docParentType] at h
  simp [callTool, h]

def posW1 : JVal := .obj [("name", .str "A"), ("price", .num 10)]

def posW2 : JVal :=
  .obj [("name", .str "B"), ("price", .num 5), ("quantity", .num 2)]

def respW42 : JVal := .obj [("objects", .obj [("id", .str "42")])]

def fsW : List (String × JVal) :=
  [("contactId", .str "7"), ("positions", .arr [posW1, posW2])]

/-- Environment in which the document POST and both position POSTs
succeed. -/
def envTwoPos : Env :=
  ⟨fun k => if k = 0 then .ok respW42 else .ok (.obj [("createdAt", .num (k : Int))]),
   "2024-05-01T00:00:00.000Z"⟩

theorem create_invoice_sequential_positions_witness :
    memberD (.obj fsW) "positions" = .arr [posW1, posW2]
    ∧ [posW1, posW2] ≠ ([] : List JVal)
    ∧ (∀ p ∈ [posW1, posW2], p.isObj = true)
    ∧ envTwoPos.resp 0 = .ok respW42
    ∧ extractCreatedId respW42 = .ok (.str "42")
    ∧ truthy (.str "42") = true
    ∧ (∀ j, j < [posW1, posW2].length → (envTwoPos.resp (1 + j)).isOk = true)
    ∧ callTool envTwoPos "create_invoice" (.obj fsW) =
      (⟨false, .json (.obj [("invoice", respW42),
          ("positions", .arr (posResults envTwoPos 1 [posW1, posW2].length))])⟩,
       docRequest true envTwoPos (.obj fsW)
         :: [posW1, posW2].map (posRequest "Invoice" (.str "42"))) :=
  ⟨rfl, by simp, by decide, rfl, rfl, rfl, by decide,
   create_invoice_sequential_positions envTwoPos fsW [posW1, posW2] respW42 (.str "42")
     rfl (by simp) (by decide) rfl rfl rfl (by decide)⟩

/-- C2: for a `create_invoice` or `create_offer` call (selected by `b`)
whose document POST succeeds with a truthy created id, if the k-th
line-item request fails (after k successes), then the issued trace is
exactly the document POST plus the line-item POSTs 0..k — line-item
requests k+1.. are never issued and no compensating request is issued —
and the operation reports an error-flagged result carrying the failure's
message. -/
theorem position_failure_aborts (b : Bool) (env : Env) (fs : List (String × JVal))
    (ps : List JVal) (k : Nat) (resp idv : JVal)
    (hpos : memberD (.obj fs) "positions" = .arr ps)
    (hobj : ∀ p ∈ ps, p.isObj = true)
    (h0 : env.resp 0 = .ok resp)
    (hid : extractCreatedId resp = .ok idv)
    (hidt : truthy idv = true)
    (hk : k < ps.length)
    (hok : ∀ j, j < k → (env.resp (1 + j)).isOk = true)
    (hfail : (env.resp (1 + k)).isOk = false) :
    callTool env (docToolName b) (.obj fs) =
      (⟨true, .errText ("Error: " ++ ((env.resp (1 + k)).errorOf).message)⟩,
       docRequest b env (.obj fs)
         :: (ps.take (k + 1)).map (posRequest (docParentType b) idv)) := by
  have hobj' : ∀ p ∈ ps, p ≠ .undefined ∧ p ≠ .null :=
    fun p hp => isObj_ne_nullish (hobj p hp)
  have h := docTool_posfail b env fs ps k resp idv hpos hobj' h0 hid hidt hk hok hfail
  simp [callTool, h]

/-- Environment in which the document POST and the first position POST
succeed and the second position POST fails with a 500. -/
def envPosFail : Env :=
  ⟨fun k => if k = 0 then .ok respW42
    else if k = 1 then .ok (.obj [("first", .bool true)])
    else .axiosErr (some (500, .str "boom")),
   "2024-05-01T00:00:00.000Z"⟩

theorem position_failure_aborts_witness :
    memberD (.obj fsW) "positions" = .arr [posW1, posW2]
    ∧ (∀ p ∈ [posW1, posW2], p.isObj = true)
    ∧ envPosFail.resp 0 = .ok respW42
    ∧ extractCreatedId respW42 = .ok (.str "42")
    ∧ truthy (.str "42") = true
    ∧ 1 < [posW1, posW2].length
    ∧ (∀ j, j < 1 → (envPosFail.resp (1 + j)).isOk = true)
    ∧ (envPosFail.resp (1 + 1)).isOk = false
    ∧ callTool envPosFail (docToolName true) (.obj fsW) =
      (⟨true, .errText ("Error: " ++ ((envPosFail.resp (1 + 1)).errorOf).message)⟩,
       docRequest true envPosFail (.obj fsW)
         :: ([posW1, posW2].take (1 + 1)).map (posRequest (docParentType true) (.str "42"))) :=
  ⟨rfl, by decide, rfl, rfl, rfl, by decide, by decide, rfl,
   position_failure_aborts true envPosFail fsW [posW1, posW2] 1 respW42 (.str "42")
     rfl (by decide) rfl rfl rfl (by decide) (by decide) rfl⟩

/-- Environment whose every response is a success with body `null`. -/
def envNullResp : Env := ⟨fun _ => .ok .null, "2024-05-01T00:00:00.000Z"⟩

/-- C4 counterexample: a `create_invoice` call with no `positions` argument
whose document POST succeeds with response body `null`.  The claim says the
result equals the raw document-creation response; instead the adapter
throws a `TypeError` while resolving the created id (it reads `.objects` of
the `null` response before checking `positions`) and reports an
error-flagged result. -/
theorem create_invoice_null_response_cex :
    (callTool envNullResp "create_invoice" (.obj [("contactId", .str "1")])).1.isError = true
    ∧ (callTool envNullResp "create_invoice" (.obj [("contactId", .str "1")])).1.content
        = .errText ("Error: " ++ readMsg "null" "objects")
    ∧ (callTool envNullResp "create_invoice" (.obj [("contactId", .str "1")])).1
        ≠ ⟨false, .json .null⟩ := by
  refine ⟨rfl, rfl, ?_⟩
  intro h
  have h2 : true = false := congrArg ToolResult.isError h
  exact Bool.noConfusion h2

/-- C4 (amended): for a `create_invoice` call whose requests all succeed
and whose document-creation response is not `null`/`undefined` (a `null`
response makes id extraction throw, so the call reports an error instead of
returning the bare response), with `positions` absent or an array of object
line items: the composite `{invoice, positions}` result is returned exactly
when `positions` is a non-empty array and a truthy created id was resolved;
otherwise (including `positions` non-empty but no id resolvable) the bare
document-creation response is returned unchanged, with no `positions` key
added. -/
theorem create_invoice_composite_amended (env : Env) (fs : List (String × JVal))
    (resp : JVal)
    (hall : ∀ k, (env.resp k).isOk = true)
    (h0 : env.resp 0 = .ok resp)
    (hnn : resp ≠ .null) (hnu : resp ≠ .undefined)
    (hwf : memberD (.obj fs) "positions" = .undefined
        ∨ ∃ ps, memberD (.obj fs) "positions" = .arr ps ∧ ∀ p ∈ ps, p.isObj = true) :
    (∀ ps, memberD (.obj fs) "positions" = .arr ps → ps ≠ [] →
      truthy (extractIdD resp) = true →
      callTool env "create_invoice" (.obj fs) =
        (⟨false, .json (.obj [("invoice", resp),
            ("positions", .arr (posResults env 1 ps.length))])⟩,
         docRequest true env (.obj fs)
           :: ps.map (posRequest "Invoice" (extractIdD resp))))
    ∧ ((memberD (.obj fs) "positions" = .undefined
          ∨ memberD (.obj fs) "positions" = .arr []
          ∨ truthy (extractIdD resp) = false) →
      callTool env "create_invoice" (.obj fs) =
        (⟨false, .json resp⟩, [docRequest true env (.obj fs)])) := by
  have hid : extractCreatedId resp = .ok (extractIdD resp) := by
    cases resp
    case null => exact absurd rfl hnn
    case undefined => exact absurd rfl hnu
    all_goals rfl
  constructor
  · intro ps hps hne hidt
    have hobj : ∀ p ∈ ps, p ≠ .undefined ∧ p ≠ .null := by
      rcases hwf with hwf | ⟨ps', hps', hobj'⟩
      · rw [hps] at hwf; exact absurd hwf (by simp)
      · rw [hps] at hps'
        have : ps' = ps := by injection hps'.symm
        subst this
        exact fun p hp => isObj_ne_nullish (hobj' p hp)
    have h := docTool_composite true env fs ps resp (extractIdD resp)
      hps hne hobj h0 hid hidt (fun j _ => hall (1 + j))
    simp only [docToolName, cond_true, docKey, docParentType] at h
    simp [callTool, h]
  · intro hdisj
    have hcond : (truthy (memberD (.obj fs) "positions")
        && jsGtZero (jsLength (memberD (.obj fs) "positions"))
        && truthy (extractIdD resp)) = false := by
      rcases hdisj with h | h | h
      · rw [h]; rfl
      · rw [h]; rfl
      · rw [h]; simp
    have h := docTool_bare true env fs resp (extractIdD resp) h0 hid hcond
    simp only [docToolName, cond_true] at h
    simp [callTool, h]

/-- Environment in which every request succeeds with the id-carrying body
`respW42`. -/
def envAllOk : Env := ⟨fun _ => .ok respW42, "2024-05-01T00:00:00.000Z"⟩

theorem create_invoice_composite_amended_witness :
    (∀ k, (envAllOk.resp k).isOk = true)
    ∧ envAllOk.resp 0 = .ok respW42
    ∧ respW42 ≠ .null
    ∧ respW42 ≠ .undefined
    ∧ (memberD (.obj [("contactId", .str "7")]) "positions" = .undefined
        ∨ ∃ ps, memberD (.obj [("contactId", .str "7")]) "positions" = .arr ps
            ∧ ∀ p ∈ ps, p.isObj = true)
    ∧ ((∀ ps, memberD (.obj [("contactId", .str "7")]) "positions" = .arr ps → ps ≠ [] →
        truthy (extractIdD respW42) = true →
        callTool envAllOk "create_invoice" (.obj [("contactId", .str "7")]) =
          (⟨false, .json (.obj [("invoice", respW42),
              ("positions", .arr (posResults envAllOk 1 ps.length))])⟩,
           docRequest true envAllOk (.obj [("contactId", .str "7")])
             :: ps.map (posRequest "Invoice" (extractIdD respW42))))
      ∧ ((memberD (.obj [("contactId", .str "7")]) "positions" = .undefined
            ∨ memberD (.obj [("contactId", .str "7")]) "positions" = .arr []
            ∨ truthy (extractIdD respW42) = false) →
        callTool envAllOk "create_invoice" (.obj [("contactId", .str "7")]) =
          (⟨false, .json respW42⟩,
           [docRequest true envAllOk (.obj [("contactId", .str "7")])]))) :=
  ⟨fun _ => rfl, rfl, by simp [respW42], by simp [respW42], Or.inl rfl,
   create_invoice_composite_amended envAllOk [("contactId", .str "7")] respW42
     (fun _ => rfl) rfl (by simp [respW42]) (by simp [respW42]) (Or.inl rfl)⟩

def widgetW : JVal := .obj [("name", .str "Widget"), ("price", .num 10)]

def respW123 : JVal := .obj [("objects", .obj [("id", .str "123")])]

/-- Environment for the offer example: order POST returns a body carrying
`objects.id = "123"`, the position POST succeeds. -/
def envOfferW : Env :=
  ⟨fun k => if k = 0 then .ok respW123 else .ok (.obj [("created", .bool true)]),
   "2024-05-01T00:00:00.000Z"⟩

def offerExampleArgs : JVal :=
  .obj [("contactId", .str "5"), ("positions", .arr [widgetW])]

/-- C3: (general part) for every position object passed to the shared
position-creation procedure, under either parent kind, the POST payload
carries the parent reference under the kind-correct key with the kind's
resource-type tag, `quantity` defaulted to 1 when not supplied, `price` and
`name` from the input, a `unity` reference whose id defaults to "1" when
`unityId` is not supplied, `taxRate` defaulted to 0, the `mapAll` flag, and
`text` only if supplied; (example part) `create_offer` with contact "5" and
one Widget position first POSTs an order payload with `orderType` "AN" and
then POSTs exactly one position payload referencing the extracted id "123"
with `quantity` 1, `taxRate` 0 and the default unity reference. -/
theorem position_payload_shape :
    (∀ (b : Bool) (pid pos : JVal), pos.isObj = true →
      ∀ pl, pl = posPayloadCore (docParentType b) pid pos →
      pl.lookupF (parentKeyOf (docParentType b)) =
          some (.obj [("id", pid), ("objectName", .str (docParentType b))])
      ∧ (memberD pos "quantity" = .undefined → pl.lookupF "quantity" = some (.num 1))
      ∧ pl.lookupF "price" = some (memberD pos "price")
      ∧ pl.lookupF "name" = some (memberD pos "name")
      ∧ (memberD pos "unityId" = .undefined →
          pl.lookupF "unity" = some (.obj [("id", .str "1"), ("objectName", .str "Unity")]))
      ∧ (memberD pos "taxRate" = .undefined → pl.lookupF "taxRate" = some (.num 0))
      ∧ pl.lookupF "mapAll" = some (.bool true)
      ∧ (memberD pos "text" = .undefined → pl.lookupF "text" = none)
      ∧ (∀ t, pl.lookupF "text" = some t →
          t = memberD pos "text" ∧ truthy (memberD pos "text") = true))
    ∧ ((callTool envOfferW "create_offer" offerExampleArgs).2 =
        [⟨.str "POST", .str "/Order", offerPayload envOfferW offerExampleArgs, .undefined⟩,
         ⟨.str "POST", .str "/OrderPos",
           .obj [("order", .obj [("id", .str "123"), ("objectName", .str "Order")]),
                 ("quantity", .num 1), ("price", .num 10), ("name", .str "Widget"),
                 ("unity", .obj [("id", .str "1"), ("objectName", .str "Unity")]),
                 ("taxRate", .num 0), ("mapAll", .bool true)], .undefined⟩]
      ∧ (offerPayload envOfferW offerExampleArgs).lookupF "orderType" = some (.str "AN")) := by
  constructor
  · intro b pid pos _ pl hpl
    by_cases ht : truthy (memberD pos "text") = true
    · have hpl2 : pl = objPush (JVal.obj [
        (parentKeyOf (docParentType b),
          .obj [("id", pid), ("objectName", .str (docParentType b))]),
        ("quantity", jsOr (memberD pos "quantity") (.num 1)),
        ("price", memberD pos "price"),
        ("name", memberD pos "name"),
        ("unity", .obj [("id", jsOr (memberD pos "unityId") (.str "1")),
                        ("objectName", .str "Unity")]),
        ("taxRate", jsOr (memberD pos "taxRate") (.num 0)),
        ("mapAll", .bool true)]) "text" (memberD pos "text") := by
        rw [hpl]
        simp only [posPayloadCore, if_pos ht]
      subst hpl2
      cases b <;>
      · refine ⟨rfl, ?_, rfl, rfl, ?_, ?_, rfl, ?_, ?_⟩
        · intro hq; rw [hq]; rfl
        · intro hu; rw [hu]; rfl
        · intro htx; rw [htx]; rfl
        · intro htx; rw [htx] at ht; exact absurd ht (by decide)
        · intro t hsome
          have hsome2 : some (memberD pos "text") = some t := by
            rw [← hsome]
            rfl
          exact ⟨(Option.some.inj hsome2).symm, ht⟩
    · have ht2 : truthy (memberD pos "text") = false := by
        revert ht; cases truthy (memberD pos "text") <;> simp
      have hpl2 : pl = JVal.obj [
        (parentKeyOf (docParentType b),
          .obj [("id", pid), ("objectName", .str (docParentType b))]),
        ("quantity", jsOr (memberD pos "quantity") (.num 1)),
        ("price", memberD pos "price"),
        ("name", memberD pos "name"),
        ("unity", .obj [("id", jsOr (memberD pos "unityId") (.str "1")),
                        ("objectName", .str "Unity")]),
        ("taxRate", jsOr (memberD pos "taxRate") (.num 0)),
        ("mapAll", .bool true)] := by
        rw [hpl]
        simp only [posPayloadCore, ht2, if_false, Bool.false_eq_true]
      subst hpl2
      cases b <;>
      · refine ⟨rfl, ?_, rfl, rfl, ?_, ?_, rfl, fun _ => rfl, ?_⟩
        · intro hq; rw [hq]; rfl
        · intro hu; rw [hu]; rfl
        · intro htx; rw [htx]; rfl
        · intro t hsome
          exact Option.noConfusion hsome
  · exact ⟨by rw [callTool_snd]; rfl, rfl⟩

theorem position_payload_shape_witness :
    widgetW.isObj = true
    ∧ (∀ pl, pl = posPayloadCore (docParentType true) (.str "9") widgetW →
      pl.lookupF (parentKeyOf (docParentType true)) =
          some (.obj [("id", .str "9"), ("objectName", .str (docParentType true))])
      ∧ (memberD widgetW "quantity" = .undefined → pl.lookupF "quantity" = some (.num 1))
      ∧ pl.lookupF "price" = some (memberD widgetW "price")
      ∧ pl.lookupF "name" = some (memberD widgetW "name")
      ∧ (memberD widgetW "unityId" = .undefined →
          pl.lookupF "unity" = some (.obj [("id", .str "1"), ("objectName", .str "Unity")]))
      ∧ (memberD widgetW "taxRate" = .undefined → pl.lookupF "taxRate" = some (.num 0))
      ∧ pl.lookupF "mapAll" = some (.bool true)
      ∧ (memberD widgetW "text" = .undefined → pl.lookupF "text" = none)
      ∧ (∀ t, pl.lookupF "text" = some t →
          t = memberD widgetW "text" ∧ truthy (memberD widgetW "text") = true)) :=
  ⟨rfl, position_payload_shape.1 true (.str "9") widgetW rfl⟩

lemma listContactsParams_obj (fs : List (String × JVal)) :
    listContactsParams (.obj fs) =
      (if truthy (memberD (.obj fs) "customerNumber")
       then objPush
         (if truthy (memberD (.obj fs) "depth")
          then objPush (JVal.obj [("limit", jsDefault (memberD (.obj fs) "limit") (.num 50)),
            ("offset", jsDefault (memberD (.obj fs) "offset") (.num 0)),
            ("countAll", .bool true)]) "embed" (.str "category,parent")
          else JVal.obj [("limit", jsDefault (memberD (.obj fs) "limit") (.num 50)),
            ("offset", jsDefault (memberD (.obj fs) "offset") (.num 0)),
            ("countAll", .bool true)])
         "customerNumber" (memberD (.obj fs) "customerNumber")
       else
         (if truthy (memberD (.obj fs) "depth")
          then objPush (JVal.obj [("limit", jsDefault (memberD (.obj fs) "limit") (.num 50)),
            ("offset", jsDefault (memberD (.obj fs) "offset") (.num 0)),
            ("countAll", .bool true)]) "embed" (.str "category,parent")
          else JVal.obj [("limit", jsDefault (memberD (.obj fs) "limit") (.num 50)),
            ("offset", jsDefault (memberD (.obj fs) "offset") (.num 0)),
            ("countAll", .bool true)])) := rfl

lemma listInvoicesParams_obj (fs : List (String × JVal)) :
    listInvoicesParams (.obj fs) =
      (if truthy (memberD (.obj fs) "contactId")
       then objPush
         (if truthy (memberD (.obj fs) "status")
          then objPush (JVal.obj [("limit", jsDefault (memberD (.obj fs) "limit") (.num 50)),
            ("offset", jsDefault (memberD (.obj fs) "offset") (.num 0)),
            ("countAll", .bool true)]) "status" (memberD (.obj fs) "status")
          else JVal.obj [("limit", jsDefault (memberD (.obj fs) "limit") (.num 50)),
            ("offset", jsDefault (memberD (.obj fs) "offset") (.num 0)),
            ("countAll", .bool true)])
         "contact[id]" (memberD (.obj fs) "contactId")
       else
         (if truthy (memberD (.obj fs) "status")
          then objPush (JVal.obj [("limit", jsDefault (memberD (.obj fs) "limit") (.num 50)),
            ("offset", jsDefault (memberD (.obj fs) "offset") (.num 0)),
            ("countAll", .bool true)]) "status" (memberD (.obj fs) "status")
          else JVal.obj [("limit", jsDefault (memberD (.obj fs) "limit") (.num 50)),
            ("offset", jsDefault (memberD (.obj fs) "offset") (.num 0)),
            ("countAll", .bool true)])) := rfl

/-- C9: `list_contacts` and `list_invoices` each issue a single GET whose
query parameters always include `countAll = true`, with `limit` and
`offset` equal to the supplied values or defaulted to 50 and 0 when
unspecified (`undefined`); for `list_invoices`, a supplied (truthy)
`status` is passed as an equality filter and a supplied (truthy)
`contactId` as the nested-path filter `contact[id]`, and each filter is
absent when its argument is unspecified. -/
theorem list_params_defaults (env : Env) (fs : List (String × JVal)) :
    ((callTool env "list_contacts" (.obj fs)).2 =
        [⟨.str "GET", .str "/Contact", .undefined, listContactsParams (.obj fs)⟩]
      ∧ (listContactsParams (.obj fs)).lookupF "countAll" = some (.bool true)
      ∧ (listContactsParams (.obj fs)).lookupF "limit" =
          some (jsDefault (memberD (.obj fs) "limit") (.num 50))
      ∧ (listContactsParams (.obj fs)).lookupF "offset" =
          some (jsDefault (memberD (.obj fs) "offset") (.num 0)))
    ∧ ((callTool env "list_invoices" (.obj fs)).2 =
        [⟨.str "GET", .str "/Invoice", .undefined, listInvoicesParams (.obj fs)⟩]
      ∧ (listInvoicesParams (.obj fs)).lookupF "countAll" = some (.bool true)
      ∧ (listInvoicesParams (.obj fs)).lookupF "limit" =
          some (jsDefault (memberD (.obj fs) "limit") (.num 50))
      ∧ (listInvoicesParams (.obj fs)).lookupF "offset" =
          some (jsDefault (memberD (.obj fs) "offset") (.num 0))
      ∧ (truthy (memberD (.obj fs) "status") = true →
          (listInvoicesParams (.obj fs)).lookupF "status" =
            some (memberD (.obj fs) "status"))
      ∧ (memberD (.obj fs) "status" = .undefined →
          (listInvoicesParams (.obj fs)).lookupF "status" = none)
      ∧ (truthy (memberD (.obj fs) "contactId") = true →
          (listInvoicesParams (.obj fs)).lookupF "contact[id]" =
            some (memberD (.obj fs) "contactId"))
      ∧ (memberD (.obj fs) "contactId" = .undefined →
          (listInvoicesParams (.obj fs)).lookupF "contact[id]" = none)) := by
  constructor
  · refine ⟨by rw [callTool_snd]; rfl, ?_, ?_, ?_⟩ <;>
    · rw [listContactsParams_obj]
      by_cases hd : truthy (memberD (.obj fs) "depth") = true <;>
        by_cases hc : truthy (memberD (.obj fs) "customerNumber") = true <;>
        simp only [Bool.not_eq_true] at hd hc <;>
        simp only [hd, hc, if_true, if_false, Bool.false_eq_true] <;> rfl
  · refine ⟨by rw [callTool_snd]; rfl, ?_, ?_, ?_, ?_, ?_, ?_, ?_⟩
    · rw [listInvoicesParams_obj]
      by_cases hs : truthy (memberD (.obj fs) "status") = true <;>
        by_cases hc : truthy (memberD (.obj fs) "contactId") = true <;>
        simp only [Bool.not_eq_true] at hs hc <;>
        simp only [hs, hc, if_true, if_false, Bool.false_eq_true] <;> rfl
    · rw [listInvoicesParams_obj]
      by_cases hs : truthy (memberD (.obj fs) "status") = true <;>
        by_cases hc : truthy (memberD (.obj fs) "contactId") = true <;>
        simp only [Bool.not_eq_true] at hs hc <;>
        simp only [hs, hc, if_true, if_false, Bool.false_eq_true] <;> rfl
    · rw [listInvoicesParams_obj]
      by_cases hs : truthy (memberD (.obj fs) "status") = true <;>
        by_cases hc : truthy (memberD (.obj fs) "contactId") = true <;>
        simp only [Bool.not_eq_true] at hs hc <;>
        simp only [hs, hc, if_true, if_false, Bool.false_eq_true] <;> rfl
    · intro hs
      rw [listInvoicesParams_obj]
      by_cases hc : truthy (memberD (.obj fs) "contactId") = true <;>
        simp only [Bool.not_eq_true] at hc <;>
        simp only [hs, hc, if_true, if_false, Bool.false_eq_true] <;> rfl
    · intro h
      have hs : truthy (memberD (.obj fs) "status") = false := by rw [h]; rfl
      rw [listInvoicesParams_obj]
      by_cases hc : truthy (memberD (.obj fs) "contactId") = true <;>
        simp only [Bool.not_eq_true] at hc <;>
        simp only [hs, hc, if_true, if_false, Bool.false_eq_true] <;> rfl
    · intro hc
      rw [listInvoicesParams_obj]
      by_cases hs : truthy (memberD (.obj fs) "status") = true <;>
        simp only [Bool.not_eq_true] at hs <;>
        simp only [hs, hc, if_true, if_false, Bool.false_eq_true] <;> rfl
    · intro h
      have hc : truthy (memberD (.obj fs) "contactId") = false := by rw [h]; rfl
      rw [listInvoicesParams_obj]
      by_cases hs : truthy (memberD (.obj fs) "status") = true <;>
        simp only [Bool.not_eq_true] at hs <;>
        simp only [hs, hc, if_true, if_false, Bool.false_eq_true] <;> rfl

def fsListW : List (String × JVal) := [("limit", .num 10), ("status", .str "100")]

theorem list_params_defaults_witness :
    ((callTool envAllOk "list_contacts" (.obj fsListW)).2 =
        [⟨.str "GET", .str "/Contact", .undefined, listContactsParams (.obj fsListW)⟩]
      ∧ (listContactsParams (.obj fsListW)).lookupF "countAll" = some (.bool true)
      ∧ (listContactsParams (.obj fsListW)).lookupF "limit" =
          some (jsDefault (memberD (.obj fsListW) "limit") (.num 50))
      ∧ (listContactsParams (.obj fsListW)).lookupF "offset" =
          some (jsDefault (memberD (.obj fsListW) "offset") (.num 0)))
    ∧ ((callTool envAllOk "list_invoices" (.obj fsListW)).2 =
        [⟨.str "GET", .str "/Invoice", .undefined, listInvoicesParams (.obj fsListW)⟩]
      ∧ (listInvoicesParams (.obj fsListW)).lookupF "countAll" = some (.bool true)
      ∧ (listInvoicesParams (.obj fsListW)).lookupF "limit" =
          some (jsDefault (memberD (.obj fsListW) "limit") (.num 50))
      ∧ (listInvoicesParams (.obj fsListW)).lookupF "offset" =
          some (jsDefault (memberD (.obj fsListW) "offset") (.num 0))
      ∧ (truthy (memberD (.obj fsListW) "status") = true →
          (listInvoicesParams (.obj fsListW)).lookupF "status" =
            some (memberD (.obj fsListW) "status"))
      ∧ (memberD (.obj fsListW) "status" = .undefined →
          (listInvoicesParams (.obj fsListW)).lookupF "status" = none)
      ∧ (truthy (memberD (.obj fsListW) "contactId") = true →
          (listInvoicesParams (.obj fsListW)).lookupF "contact[id]" =
            some (memberD (.obj fsListW) "contactId"))
      ∧ (memberD (.obj fsListW) "contactId" = .undefined →
          (listInvoicesParams (.obj fsListW)).lookupF "contact[id]" = none)) :=
  list_params_defaults envAllOk fsListW
